import Mathlib

/-!
Shallow embedding of `pandas/io/sql.py` (a DB-API convenience layer:
query wrappers, type mapping, CREATE TABLE / INSERT generation for the
sqlite, mysql, oracle and postgresql dialects), together with theorems
settling the specification claims about it.

Python exceptions are modelled by `PyErr` (the class name, which is all
the source ever inspects, plus a message).  Database side effects are
modelled by explicit parameters (fetch outcome, commit outcome per
attempt, table existence) and by traces of emitted SQL statements.
-/

namespace PandasSql

/-- A Python exception: its class name (`e.__class__.__name__`, the only
thing the source inspects) and its message. -/
structure PyErr where
  ename : String
  msg : String
deriving DecidableEq, Repr

/-- A database cell value, as handed around by the module (it never looks
inside values, so a few representative constructors suffice). -/
inductive Val where
  | vInt : Int → Val
  | vStr : String → Val
  | vNone : Val
deriving DecidableEq, Repr

instance : Inhabited Val := ⟨Val.vNone⟩

/-- A fetched row: a tuple of values. -/
abbrev Row := List Val

/-- The Python types that can reach `get_sqltype` as `dtype.type` (or be
passed directly): numpy scalar types, the `datetime`/`date` classes, and
the generic object dtype. -/
inductive PyType where
  | npFloat64
  | npInt64
  | npDatetime64
  | pyDatetimeType
  | pyDateType
  | npObject
deriving DecidableEq, Repr

/-- Truth of `issubclass(pytype, np.number)`.  Note `np.datetime64` is a
subclass of `np.number` (the source itself warns about this in a
comment). -/
def issubclass_np_number : PyType → Bool
  | .npFloat64 => true
  | .npInt64 => true
  | .npDatetime64 => true
  | _ => false

/-- Truth of `issubclass(pytype, np.integer)`.  Here `np.datetime64`
subclasses `np.signedinteger` in the numpy generation this code targets,
hence also `np.integer`; the later datetime branch overrides it either
way. -/
def issubclass_np_integer : PyType → Bool
  | .npInt64 => true
  | .npDatetime64 => true
  | _ => false

/-- Truth of `issubclass(pytype, np.datetime64)`. -/
def issubclass_np_datetime64 : PyType → Bool
  | .npDatetime64 => true
  | _ => false

/-- Truth of `pytype is datetime` (the `datetime.datetime` class imported
at the top of the module). -/
def is_pydatetime : PyType → Bool
  | .pyDatetimeType => true
  | _ => false

/-- Truth of `pytype is datetime.date`.  The module from-imports the
names `datetime` and `date`, so the name `datetime` is the *class*
`datetime.datetime`, and the expression `datetime.date` denotes the
`date` method object of that class — not the `date` type.  No type
object is ever identical to that method, so this test is false for every
input (the calendar-date branch of `get_sqltype` is dead code). -/
def is_datetime_dot_date : PyType → Bool := fun _ => false

/-- The mutable `sqltype` dict of `get_sqltype`, with its four keys. -/
structure SqlTypeTable where
  mysql : String
  oracle : String
  sqlite : String
  postgresql : String
deriving DecidableEq, Repr

/-- Model of `get_sqltype(pytype, flavor)`: start from the per-dialect text
defaults, overwrite all four entries on the numeric check (and again on
the nested integer check), then on the datetime check, then on the (dead)
calendar-date check, and finally look up `flavor` in the dict.  `none`
models the `KeyError` an unknown flavor raises. -/
def get_sqltype (pytype : PyType) (flavor : String) : Option String :=
  let t : SqlTypeTable := ⟨"VARCHAR", "VARCHAR2", "TEXT", "TEXT"⟩
  let t := if issubclass_np_number pytype then
      let tnum : SqlTypeTable := ⟨"FLOAT", "NUMBER", "REAL", "NUMBER"⟩
      if issubclass_np_integer pytype then
        ⟨"INT", "PLS_INTEGER", "INTEGER", "INTEGER"⟩
      else tnum
    else t
  let t := if issubclass_np_datetime64 pytype || is_pydatetime pytype then
      ⟨"DATETIME", "DATE", "TIMESTAMP", "TIMESTAMP"⟩
    else t
  let t := if is_datetime_dot_date pytype then
      ⟨"DATE", "DATE", "TIMESTAMP", "TIMESTAMP"⟩
    else t
  if flavor = "mysql" then some t.mysql
  else if flavor = "oracle" then some t.oracle
  else if flavor = "sqlite" then some t.sqlite
  else if flavor = "postgresql" then some t.postgresql
  else none

/-- Model of `_safe_fetch(cur)`: the argument is the outcome of `cur.fetchall()`
(already a list — the `isinstance` normalisation is the identity here).
The bare `except Exception` catches every failure; an `OperationalError`
yields `[]`, and any other exception falls off the end of the handler, so
the function returns Python `None` (modelled `none`).  The function
itself never raises, hence the result is always `Except.ok`. -/
def safe_fetch (fetched : Except PyErr (List Row)) :
    Except PyErr (Option (List Row)) :=
  match fetched with
  | .ok result => .ok (some result)
  | .error e =>
      if e.ename = "OperationalError" then .ok (some [])
      else .ok none

/-- Is the character stripped by the Python `str.strip()` (ASCII
whitespace: space, tab, newline, carriage return, vertical tab, form
feed)? -/
def isPyWhitespace (c : Char) : Bool :=
  c = ' ' || c = '\t' || c = '\n' || c = '\r' || c = '\x0b' || c = '\x0c'

/-- Python `str.strip()`: drop leading and trailing whitespace
characters. -/
def pyStrip (l : List Char) : List Char :=
  ((l.dropWhile isPyWhitespace).reverse.dropWhile isPyWhitespace).reverse

/-- Column-name sanitisation used by `write_frame` and `get_schema`:
the Python pipeline replaces every space character with an underscore
(a single-character pattern, so a character-wise map) and then strips
surrounding whitespace. -/
def safe_name (s : String) : String :=
  ⟨pyStrip (s.data.map (fun c => if c = ' ' then '_' else c))⟩

/-- Model of `sequence2dict(seq)`: a dictionary keyed by the 1-based
position rendered as a string, for cx_Oracle binding. -/
def sequence2dict (seq : List Val) : List (String × Val) :=
  seq.enum.map (fun kv => (toString (kv.1 + 1), kv.2))

/-- The in-memory tabular dataset (`DataFrame`) as this module uses it:
`frame.columns` (which also indexes `frame.dtypes`), the per-column
dtypes, and `frame.values` as a list of rows. -/
structure Frame where
  columns : List String
  dtypes : List PyType
  values : List (List Val)
deriving Repr

/-- The `template` of `get_schema`, with the placeholders substituted as
the `%`-formatting does; the continuation lines carry the 18 literal
spaces present in the triple-quoted source string. -/
def schema_template (name columns keystr : String) : String :=
  "CREATE TABLE " ++ name ++ " (\n                  " ++ columns ++
    "\n                  " ++ keystr ++ "\n                  );"

/-- Model of `get_schema(frame, name, flavor, keys)`: map each dtype through the
Type Mapper (an unknown flavor raises `KeyError` there), render the
column clause — bracket-quoted identifiers for sqlite, unquoted for every
other flavor —, append an optional `PRIMARY KEY` clause, and instantiate
the CREATE TABLE template (its continuation lines carry the 18 literal
spaces of the source).  For oracle the source then evaluates the misspelt name
`create_statment`, which is undefined, so the call raises `NameError`
instead of returning. -/
def get_schema (frame : Frame) (name : String) (flavor : String)
    (keys : Option (List String)) : Except PyErr String :=
  let safe_columns := frame.columns.map safe_name
  match frame.dtypes.mapM (fun d => get_sqltype d flavor) with
  | none => .error ⟨"KeyError", flavor⟩
  | some types =>
    let column_types := safe_columns.zip types
    let columns :=
      if flavor = "sqlite" then
        String.intercalate ",\n  "
          (column_types.map (fun x => "[" ++ x.1 ++ "] " ++ x.2))
      else
        String.intercalate ",\n  "
          (column_types.map (fun x => x.1 ++ " " ++ x.2))
    let keystr :=
      match keys with
      | none => ""
      | some ks => ", PRIMARY KEY (" ++ String.intercalate "," ks ++ ")"
    let create_statement := schema_template name columns keystr
    if flavor = "oracle" then
      .error ⟨"NameError", "global name \x27create_statment\x27 is not defined"⟩
    else
      .ok create_statement

/-- The value `tquery` returns: either a flat list of scalars (the
single-column shorthand) or the list of row tuples. -/
inductive TqueryRet where
  | flat : List Val → TqueryRet
  | rows : List Row → TqueryRet
deriving DecidableEq, Repr

/-- Length of the Python transpose of `rows` — the minimum row length,
and `0` when there are no rows (the transpose of nothing is empty). -/
def pyZipStarLen (rows : List Row) : Nat :=
  match rows.map List.length with
  | [] => 0
  | h :: t => t.foldl Nat.min h

/-- The Python transpose of `rows` (as a list of lists), truncated to the
shortest row.  Every index accessed is below the length of each row, so
the `getD` default is never read. -/
def pyZipStar (rows : List Row) : List Row :=
  (List.range (pyZipStarLen rows)).map
    (fun i => rows.map (fun r => r.getD i Val.vNone))

/-- Post-processing of the fetched result in `tquery` (the code after
the commit block): when the result is non-empty and its first row has
exactly one field, flatten it by transposing and taking the first slice
(an empty transpose there would raise `IndexError`); a result of Python
None becomes the empty list. -/
def tpost (result : Option (List Row)) : Except PyErr TqueryRet :=
  match result with
  | none => .ok (.rows [])
  | some rows =>
    if rows ≠ [] ∧ rows.headI.length = 1 then
      match pyZipStar rows with
      | [] => .error ⟨"IndexError", "list index out of range"⟩
      | first :: _ => .ok (.flat first)
    else .ok (.rows rows)

/-- The `retry=False` invocation of `tquery` (the self-call made after an
operational commit failure).  `execOutcome`/`fetchOutcome` are what
`cur.execute`/`cur.fetchall` do on this attempt and `commitOutcome` what
`cur.close(); con.commit()` does.  With retry disabled, an operational
commit failure merely falls through to the post-processing; any other
commit failure re-raises.  The second component counts executions. -/
def tqueryNoRetry (execOutcome : Option PyErr)
    (fetchOutcome : Except PyErr (List Row))
    (commitOutcome : Option PyErr) : Except PyErr TqueryRet × Nat :=
  match execOutcome with
  | some e => (.error e, 1)
  | none =>
    match safe_fetch fetchOutcome with
    | .error e => (.error e, 1)
    | .ok result =>
      match commitOutcome with
      | none => (tpost result, 1)
      | some e =>
        if e.ename = "OperationalError" then (tpost result, 1)
        else (.error e, 1)

/-- Model of `tquery(sql, con, retry=True)` with a connection present.  The
outcome functions are indexed by attempt (`0` = first execution, `1` =
the retried one).  `conIsNone` models calling with `con=None` (the commit
block is skipped).  An operational commit failure on the first attempt
re-runs the whole operation once via `tqueryNoRetry`; any other commit
failure propagates. -/
def tqueryModel (execOutcome : Nat → Option PyErr)
    (fetchOutcome : Except PyErr (List Row))
    (commitOutcome : Nat → Option PyErr)
    (conIsNone : Bool) : Except PyErr TqueryRet × Nat :=
  match execOutcome 0 with
  | some e => (.error e, 1)
  | none =>
    match safe_fetch fetchOutcome with
    | .error e => (.error e, 1)
    | .ok result =>
      if conIsNone then (tpost result, 1)
      else
        match commitOutcome 0 with
        | none => (tpost result, 1)
        | some e =>
          if e.ename = "OperationalError" then
            let rec2 := tqueryNoRetry (execOutcome 1) fetchOutcome (commitOutcome 1)
            (rec2.1, 1 + rec2.2)
          else (.error e, 1)

/-- The `retry=False` invocation of `uquery` made after an operational
commit failure.  Note that the retry call in the source, `uquery(sql,
con, retry=False)`, passes no `params`, so the re-execution binds the
default empty parameter tuple: the rowcount is `rowcountOf []`. -/
def uqueryNoRetry (execOutcome : Option PyErr)
    (rowcountOf : List Val → Int)
    (commitOutcome : Option PyErr) : Except PyErr Int × Nat :=
  match execOutcome with
  | some e => (.error e, 1)
  | none =>
    let result := rowcountOf []
    match commitOutcome with
    | none => (.ok result, 1)
    | some e =>
      if e.ename ≠ "OperationalError" then (.error e, 1)
      else (.ok result, 1)

/-- Model of `uquery(sql, con, retry=True, params)`: execute, read
`cur.rowcount` (a function of the bound parameters), commit.  A
non-operational commit failure re-raises; an operational one on the
first attempt re-runs the operation once with retry disabled (and with
the default empty params — see `uqueryNoRetry`). -/
def uqueryModel (execOutcome : Nat → Option PyErr)
    (rowcountOf : List Val → Int) (params : List Val)
    (commitOutcome : Nat → Option PyErr) : Except PyErr Int × Nat :=
  match execOutcome 0 with
  | some e => (.error e, 1)
  | none =>
    let result := rowcountOf params
    match commitOutcome 0 with
    | none => (.ok result, 1)
    | some e =>
      if e.ename ≠ "OperationalError" then (.error e, 1)
      else
        let rec2 := uqueryNoRetry (execOutcome 1) rowcountOf (commitOutcome 1)
        (rec2.1, 1 + rec2.2)

/-- The data bound to a bulk INSERT: row tuples (sqlite, mysql) or
positionally-keyed dictionaries (the cx_Oracle binding for oracle). -/
inductive BindData where
  | tuples : List (List Val) → BindData
  | dicts : List (List (String × Val)) → BindData
deriving DecidableEq, Repr

/-- A statement emitted by `write_frame`, in order: the `table_exists`
catalog query (a dialect-specific introspection SELECT whose text is not
inspected by any claim), `DROP TABLE`, `CREATE TABLE`, the bulk
`executemany` INSERT, and the final `con.commit()`. -/
inductive SqlEv where
  | exists_check : String → String → SqlEv
  | drop_stmt : String → SqlEv
  | create_stmt : String → SqlEv
  | executemany : String → BindData → SqlEv
  | commit : SqlEv
deriving DecidableEq, Repr

/-- Is the event a DDL or DML statement (as opposed to the read-only
catalog lookup or the transaction commit)? -/
def isDDLorDML : SqlEv → Bool
  | .exists_check _ _ => false
  | .drop_stmt _ => true
  | .create_stmt _ => true
  | .executemany _ _ => true
  | .commit => false

/-- The flavors `table_exists` knows a catalog query for; `odbc` and
anything else raise `NotImplementedError` there. -/
def table_exists_known (flavor : String) : Bool :=
  flavor = "sqlite" || flavor = "mysql" || flavor = "postgresql" ||
    flavor = "oracle"

/-- The INSERT branch of `write_frame`: per dialect, the statement text
(sanitised column names; `[..]`-quoted with `?` placeholders for sqlite,
unquoted with `%s` for mysql, unquoted with `:1, :2, ...` and dictionary
binding for oracle) and the bound data.  Every other flavor — postgresql
included — hits the `else: raise NotImplementedError`. -/
def write_frame_insert (frame : Frame) (name : String) (flavor : String) :
    Except PyErr (String × BindData) :=
  let safe_names := frame.columns.map safe_name
  if flavor = "sqlite" then
    let bracketed_names := safe_names.map (fun column => "[" ++ column ++ "]")
    let col_names := String.intercalate "," bracketed_names
    let wildcards := String.intercalate "," (safe_names.map (fun _ => "?"))
    .ok ("INSERT INTO " ++ name ++ " (" ++ col_names ++ ") VALUES (" ++
          wildcards ++ ")",
        .tuples frame.values)
  else if flavor = "mysql" then
    let col_names := String.intercalate "," safe_names
    let wildcards := String.intercalate "," (safe_names.map (fun _ => "%s"))
    .ok ("INSERT INTO " ++ name ++ " (" ++ col_names ++ ") VALUES (" ++
          wildcards ++ ")",
        .tuples frame.values)
  else if flavor = "oracle" then
    let col_names := String.intercalate "," safe_names
    let col_pos := String.intercalate ", "
      (safe_names.enum.map (fun p => ":" ++ toString (p.1 + 1)))
    .ok ("INSERT INTO " ++ name ++ " (" ++ col_names ++ ") VALUES (" ++
          col_pos ++ ")",
        .dicts (frame.values.map sequence2dict))
  else .error ⟨"NotImplementedError", ""⟩

/-- Model of `write_frame(frame, name, con, flavor, if_exists)`.  Here
`tableExists` is
what the database answers to the `table_exists` catalog query.  Returns
the outcome together with the trace of statements executed before
returning or raising: existence check; the `if_exists` policy checks
(`fail` on an existing table and `append` on a missing one raise
`ValueError` before any DDL/DML); `DROP TABLE` for `replace` on an
existing table; `CREATE TABLE` (via `get_schema`, which raises for
oracle) whenever replacing or the table is absent; the dialect-specific
bulk INSERT; one commit. -/
def write_frame (frame : Frame) (name : String) (flavor : String)
    (if_exists : String) (tableExists : Bool) :
    Except PyErr Unit × List SqlEv :=
  if table_exists_known flavor = false then
    (.error ⟨"NotImplementedError", ""⟩, [])
  else
    let evs0 : List SqlEv := [.exists_check flavor name]
    if if_exists = "fail" ∧ tableExists then
      (.error ⟨"ValueError", "Table \x27" ++ name ++ "\x27 already exists."⟩,
        evs0)
    else if if_exists = "append" ∧ ¬tableExists then
      (.error ⟨"ValueError",
          "Table \x27" ++ name ++ "\x27 does not exist. Cannot append."⟩,
        evs0)
    else
      let evs1 :=
        if if_exists = "replace" ∧ tableExists then
          evs0 ++ [.drop_stmt ("DROP TABLE " ++ name)]
        else evs0
      let afterCreate : Except PyErr (List SqlEv) :=
        if if_exists = "replace" ∨ ¬tableExists then
          match get_schema frame name flavor none with
          | .error e => .error e
          | .ok create_table => .ok (evs1 ++ [.create_stmt create_table])
        else .ok evs1
      match afterCreate with
      | .error e => (.error e, evs1)
      | .ok evs2 =>
        match write_frame_insert frame name flavor with
        | .error e => (.error e, evs2)
        | .ok (insert_query, data) =>
          (.ok (), evs2 ++ [.executemany insert_query data, .commit])

/-! Theorems settling the claims. -/

/-- A one-column integer frame with a single row, used as a concrete
input by several theorems. -/
def frame0 : Frame := ⟨["a"], [PyType.npInt64], [[Val.vInt 1]]⟩

/-- The generated CREATE TABLE text for `frame0` under a non-sqlite
(unquoted) dialect whose integer type is INTEGER. -/
def frame0IntSchema : String :=
  "CREATE TABLE t (\n                  a INTEGER\n                  \n                  );"

/-- C1: the claim says `write_frame` with dialect postgresql builds a
bulk INSERT with unquoted names and named placeholders and commits.  In
the source, the INSERT dispatch of `write_frame` has branches only for
sqlite, mysql and oracle; postgresql falls into `else: raise
NotImplementedError`, after the table has already been created.  (The
repository even calls `write_frame(..., flavor='postgresql', ...)` in
its own `test_postgresql`, which this makes unreachable.)  Evaluated at
a concrete one-column frame on a fresh table. -/
theorem C1_write_frame_postgresql_raises :
    write_frame frame0 "t" "postgresql" "fail" false =
      (.error ⟨"NotImplementedError", ""⟩,
       [.exists_check "postgresql" "t", .create_stmt frame0IntSchema]) := by
  rfl

/-- C4: the claim says a pure calendar-date type is mapped to the
date-oriented type of the dialect.  The guard `pytype is datetime.date`
compares against the `date` method of the imported `datetime` class, so
the branch is dead and `get_sqltype` returns the generic text default
for the `date` type instead of DATE. -/
theorem C4_pure_date_maps_to_text :
    get_sqltype PyType.pyDateType "mysql" = some "VARCHAR" ∧
      get_sqltype PyType.pyDateType "mysql" ≠ some "DATE" := by
  decide

/-- C6: the claim says `if_exists='replace'` on an existing table issues
exactly one DROP, one CREATE, the bulk INSERT, then a commit.  For the
oracle dialect the code issues the DROP and then crashes inside
`get_schema` (the misspelt `create_statment` raises `NameError`), so no
CREATE, INSERT or commit ever happens; the sqlite conjunct shows the
claimed order on a dialect whose code path is intact. -/
theorem C6_replace_order :
    write_frame frame0 "t" "oracle" "replace" true =
      (.error ⟨"NameError", "global name \x27create_statment\x27 is not defined"⟩,
       [.exists_check "oracle" "t", .drop_stmt "DROP TABLE t"]) ∧
    write_frame frame0 "t" "sqlite" "replace" true =
      (.ok (),
       [.exists_check "sqlite" "t",
        .drop_stmt "DROP TABLE t",
        .create_stmt
          "CREATE TABLE t (\n                  [a] INTEGER\n                  \n                  );",
        .executemany "INSERT INTO t ([a]) VALUES (?)"
          (.tuples [[Val.vInt 1]]),
        .commit]) := by
  exact ⟨rfl, rfl⟩

/-- C9: the claim says `get_schema` with dialect oracle returns the
CREATE TABLE statement with the terminator removed.  The oracle branch
reads the undefined name `create_statment` (a misspelling of
`create_statement`), so every oracle call raises `NameError` and nothing
is returned. -/
theorem C9_oracle_schema_name_error :
    get_schema ⟨["a"], [PyType.npFloat64], []⟩ "t" "oracle" none =
      .error ⟨"NameError", "global name \x27create_statment\x27 is not defined"⟩ := by
  rfl

/-- C10: the claim says `if_exists='fail'` on a non-existent table raises
no error and runs the create-then-insert path.  That is exactly what
happens for sqlite (second conjunct), but for the oracle dialect the
call crashes in `get_schema` (misspelt `create_statment`), and for
postgresql the insert dispatch raises `NotImplementedError`, so the
claim fails on those dialects (first conjunct shows oracle). -/
theorem C10_fail_on_missing_table :
    write_frame frame0 "t" "oracle" "fail" false =
      (.error ⟨"NameError", "global name \x27create_statment\x27 is not defined"⟩,
       [.exists_check "oracle" "t"]) ∧
    write_frame frame0 "t" "sqlite" "fail" false =
      (.ok (),
       [.exists_check "sqlite" "t",
        .create_stmt
          "CREATE TABLE t (\n                  [a] INTEGER\n                  \n                  );",
        .executemany "INSERT INTO t ([a]) VALUES (?)"
          (.tuples [[Val.vInt 1]]),
        .commit]) := by
  exact ⟨rfl, rfl⟩

/-- C3 counterexample: the claim says a fetch failure of any kind other
than operational propagates unchanged to the caller.  At the concrete
non-operational failure `ProgrammingError`, `_safe_fetch` does not
propagate it — the handler catches every exception and falls off its
end, returning Python None. -/
theorem C3_counterexample :
    safe_fetch (.error ⟨"ProgrammingError", ""⟩) ≠
        Except.error ⟨"ProgrammingError", ""⟩ ∧
      safe_fetch (.error ⟨"ProgrammingError", ""⟩) = .ok none := by
  refine ⟨?_, rfl⟩
  intro h
  exact Except.noConfusion h

/-- C3 amended: a successful fetch is returned as is; a fetch failure
whose kind is operational yields the empty sequence; a fetch failure of
any other kind is also caught, and the function returns the absent
result (Python None) instead of propagating.  `_safe_fetch` never
raises. -/
theorem C3_safe_fetch_amended :
    ∀ (r : List Row) (e : PyErr),
      safe_fetch (.ok r) = .ok (some r) ∧
        safe_fetch (.error e) =
          .ok (if e.ename = "OperationalError" then some [] else none) := by
  intro r e
  refine ⟨rfl, ?_⟩
  by_cases h : e.ename = "OperationalError" <;> simp [safe_fetch, h]

/-- The value inside the (always successful) result of `_safe_fetch`. -/
def safeFetchVal (fetched : Except PyErr (List Row)) : Option (List Row) :=
  match fetched with
  | .ok result => some result
  | .error e => if e.ename = "OperationalError" then some [] else none

/-- A fetch never raises: `_safe_fetch` always returns. -/
lemma safe_fetch_eq_ok (fetched : Except PyErr (List Row)) :
    safe_fetch fetched = .ok (safeFetchVal fetched) := by
  rcases fetched with e | r
  · by_cases h : e.ename = "OperationalError" <;>
      simp [safe_fetch, safeFetchVal, h]
  · rfl

/-- An attempt with retry disabled executes the query exactly once, for
any execute, fetch and commit outcome. -/
lemma tqueryNoRetry_count (eo : Option PyErr) (fo : Except PyErr (List Row))
    (co : Option PyErr) : (tqueryNoRetry eo fo co).2 = 1 := by
  unfold tqueryNoRetry
  rcases eo with _ | e
  · rw [safe_fetch_eq_ok fo]
    rcases co with _ | e₃
    · rfl
    · simp only
      split <;> rfl
  · rfl

/-- A `uquery` attempt with retry disabled executes exactly once. -/
lemma uqueryNoRetry_count (eo : Option PyErr) (rc : List Val → Int)
    (co : Option PyErr) : (uqueryNoRetry eo rc co).2 = 1 := by
  unfold uqueryNoRetry
  rcases eo with _ | e
  · rcases co with _ | e₂
    · rfl
    · simp only
      split <;> rfl
  · rfl

/-- C2: with execution itself succeeding, a commit failure classified as
operational (class name `OperationalError`) on the first attempt causes
the whole operation — `tquery` or `uquery` — to run exactly twice in
total (one re-execution, never two, whatever the retried commit does),
while a commit failure of any other class propagates unchanged after a
single execution. -/
theorem C2_commit_retry_once :
    ∀ (fo : Except PyErr (List Row)) (rc : List Val → Int)
      (params : List Val) (cf : Nat → Option PyErr) (e : PyErr),
      cf 0 = some e →
      ((e.ename = "OperationalError" →
          (tqueryModel (fun _ => none) fo cf false).2 = 2 ∧
            (uqueryModel (fun _ => none) rc params cf).2 = 2) ∧
        (e.ename ≠ "OperationalError" →
          tqueryModel (fun _ => none) fo cf false = (.error e, 1) ∧
            uqueryModel (fun _ => none) rc params cf = (.error e, 1))) := by
  intro fo rc params cf e hcf
  constructor
  · intro hop
    constructor
    · unfold tqueryModel
      rw [safe_fetch_eq_ok fo, hcf]
      simp [hop, tqueryNoRetry_count]
    · unfold uqueryModel
      rw [hcf]
      simp [hop, uqueryNoRetry_count]
  · intro hne
    constructor
    · unfold tqueryModel
      rw [safe_fetch_eq_ok fo, hcf]
      simp [hne]
    · unfold uqueryModel
      rw [hcf]
      simp [hne]

/-- C2 witness: the theorem applied at concrete inputs — an operational
commit failure on both attempts still executes only twice, and a
concrete `DatabaseError` commit failure propagates after one
execution. -/
theorem C2_commit_retry_once_witness :
    ((tqueryModel (fun _ => none) (.ok [[Val.vInt 1]])
        (fun _ => some ⟨"OperationalError", ""⟩) false).2 = 2 ∧
      (uqueryModel (fun _ => none) (fun p => p.length) [Val.vInt 5]
        (fun _ => some ⟨"OperationalError", ""⟩)).2 = 2) ∧
    (tqueryModel (fun _ => none) (.ok [[Val.vInt 1]])
        (fun _ => some ⟨"DatabaseError", ""⟩) false =
      (.error ⟨"DatabaseError", ""⟩, 1) ∧
      uqueryModel (fun _ => none) (fun p => p.length) [Val.vInt 5]
        (fun _ => some ⟨"DatabaseError", ""⟩) =
      (.error ⟨"DatabaseError", ""⟩, 1)) := by
  constructor
  · exact (C2_commit_retry_once (.ok [[Val.vInt 1]]) (fun p => p.length)
      [Val.vInt 5] (fun _ => some ⟨"OperationalError", ""⟩)
      ⟨"OperationalError", ""⟩ rfl).1 rfl
  · exact (C2_commit_retry_once (.ok [[Val.vInt 1]]) (fun p => p.length)
      [Val.vInt 5] (fun _ => some ⟨"DatabaseError", ""⟩)
      ⟨"DatabaseError", ""⟩ rfl).2 (by decide)

/-- Folding `Nat.min` from `1` over a list of ones gives `1`. -/
lemma foldl_min_ones (l : List Nat) (h : ∀ x ∈ l, x = 1) :
    l.foldl Nat.min 1 = 1 := by
  induction l with
  | nil => rfl
  | cons a t ih =>
    have ha : a = 1 := h a (List.mem_cons_self a t)
    have : ∀ x ∈ t, x = 1 := fun x hx => h x (List.mem_cons_of_mem a hx)
    simpa [ha] using ih this

/-- When every row has exactly one field, the transpose length is 1. -/
lemma pyZipStarLen_ones (rows : List Row) (hne : rows ≠ [])
    (h1 : ∀ r ∈ rows, r.length = 1) : pyZipStarLen rows = 1 := by
  rcases rows with _ | ⟨r, t⟩
  · exact absurd rfl hne
  · unfold pyZipStarLen
    simp only [List.map_cons]
    have hr : r.length = 1 := h1 r (List.mem_cons_self r t)
    rw [hr]
    exact foldl_min_ones _ (by
      intro x hx
      rcases List.mem_map.mp hx with ⟨r₂, hr₂, hx₂⟩
      exact hx₂ ▸ h1 r₂ (List.mem_cons_of_mem r hr₂))

/-- For a non-empty list, the 0th element with default is the head. -/
lemma getD_zero_eq_headI (r : List Val) (h : r ≠ []) :
    r.getD 0 Val.vNone = r.headI := by
  rcases r with _ | ⟨a, t⟩
  · exact absurd rfl h
  · rfl

/-- When every row has exactly one field, the transpose is the single
column of the heads. -/
lemma pyZipStar_ones (rows : List Row) (hne : rows ≠ [])
    (h1 : ∀ r ∈ rows, r.length = 1) :
    pyZipStar rows = [rows.map (fun r => r.headI)] := by
  unfold pyZipStar
  rw [pyZipStarLen_ones rows hne h1]
  have hrange : List.range 1 = [0] := by decide
  rw [hrange]
  simp only [List.map_cons, List.map_nil]
  congr 1
  refine List.map_congr_left ?_
  intro r hr
  exact getD_zero_eq_headI r (by
    intro hnil
    have := h1 r hr
    rw [hnil] at this
    exact absurd this (by decide))

/-- Membership of the default-valued head in a non-empty list. -/
lemma headI_mem_of_ne_nil (l : List Row) (h : l ≠ []) : l.headI ∈ l := by
  rcases l with _ | ⟨a, t⟩
  · exact absurd rfl h
  · exact List.mem_cons_self a t

/-- Unfolding of the post-processing at a present result. -/
lemma tpost_some (rows : List Row) :
    tpost (some rows) =
      if rows ≠ [] ∧ rows.headI.length = 1 then
        match pyZipStar rows with
        | [] => .error ⟨"IndexError", "list index out of range"⟩
        | first :: _ => .ok (.flat first)
      else .ok (.rows rows) := rfl

/-- C7: post-processing of `tquery` results (execution, fetch and commit
all succeeding, connection present): a non-empty result whose rows all
have exactly one field comes back flattened to the list of the scalar
values; a result whose rows all have more than one field comes back as
the row list unchanged; an empty result, and an absent result (a fetch
failure of any class, which `_safe_fetch` turns into `[]` or None), come
back as the empty sequence. -/
theorem C7_tquery_result_shape :
    ∀ (rows : List Row),
      ((rows ≠ [] → (∀ r ∈ rows, r.length = 1) →
          tqueryModel (fun _ => none) (.ok rows) (fun _ => none) false =
            (.ok (.flat (rows.map (fun r => r.headI))), 1)) ∧
        ((∀ r ∈ rows, 1 < r.length) → rows ≠ [] →
          tqueryModel (fun _ => none) (.ok rows) (fun _ => none) false =
            (.ok (.rows rows), 1))) ∧
      (tqueryModel (fun _ => none) (.ok []) (fun _ => none) false =
          (.ok (.rows []), 1) ∧
        ∀ e : PyErr,
          tqueryModel (fun _ => none) (.error e) (fun _ => none) false =
            (.ok (.rows []), 1)) := by
  intro rows
  refine ⟨⟨?_, ?_⟩, ?_, ?_⟩
  · intro hne h1
    show (tpost (some rows), 1) = _
    rw [tpost_some, if_pos ⟨hne, h1 rows.headI (headI_mem_of_ne_nil rows hne)⟩,
      pyZipStar_ones rows hne h1]
  · intro hgt hne
    show (tpost (some rows), 1) = _
    rw [tpost_some, if_neg ?_]
    rintro ⟨-, hlen⟩
    have := hgt rows.headI (headI_mem_of_ne_nil rows hne)
    omega
  · rfl
  · intro e
    unfold tqueryModel
    rw [safe_fetch_eq_ok]
    by_cases h : e.ename = "OperationalError" <;>
      simp [safeFetchVal, h, tpost]

/-- C7 witness: the theorem applied at a concrete two-row single-column
result (flattened to scalars) and a concrete one-row two-column result
(returned as row tuples). -/
theorem C7_tquery_result_shape_witness :
    tqueryModel (fun _ => none) (.ok [[Val.vInt 1], [Val.vInt 2]])
        (fun _ => none) false =
      (.ok (.flat [Val.vInt 1, Val.vInt 2]), 1) ∧
    tqueryModel (fun _ => none) (.ok [[Val.vInt 1, Val.vInt 2]])
        (fun _ => none) false =
      (.ok (.rows [[Val.vInt 1, Val.vInt 2]]), 1) := by
  constructor
  · exact (C7_tquery_result_shape [[Val.vInt 1], [Val.vInt 2]]).1.1
      (by decide) (by decide)
  · exact (C7_tquery_result_shape [[Val.vInt 1, Val.vInt 2]]).1.2
      (by decide) (by decide)

/-- C5: for every frame, table name and recognized dialect, `write_frame`
with `if_exists='fail'` on an existing table, and with
`if_exists='append'` on a non-existent table, raise two distinct
`ValueError`s (table-exists and table-missing), and in both cases the
statement trace up to the raise is just the read-only existence check —
no DDL or DML statement was executed. -/
theorem C5_policy_violations :
    ∀ (frame : Frame) (name flavor : String),
      table_exists_known flavor = true →
      write_frame frame name flavor "fail" true =
        (.error ⟨"ValueError",
            "Table \x27" ++ name ++ "\x27 already exists."⟩,
          [.exists_check flavor name]) ∧
      write_frame frame name flavor "append" false =
        (.error ⟨"ValueError",
            "Table \x27" ++ name ++ "\x27 does not exist. Cannot append."⟩,
          [.exists_check flavor name]) ∧
      (PyErr.mk "ValueError" ("Table \x27" ++ name ++ "\x27 already exists.") ≠
        PyErr.mk "ValueError"
          ("Table \x27" ++ name ++ "\x27 does not exist. Cannot append.")) ∧
      [SqlEv.exists_check flavor name].filter isDDLorDML = [] := by
  intro frame name flavor hk
  refine ⟨?_, ?_, ?_, rfl⟩
  · unfold write_frame
    rw [hk]
    rfl
  · unfold write_frame
    rw [hk]
    rfl
  · intro h
    have hmsg := congrArg PyErr.msg h
    have hlen := congrArg String.length hmsg
    have e1 : ("Table \x27" : String).length = 7 := rfl
    have e2 : ("\x27 already exists." : String).length = 17 := rfl
    have e3 : ("\x27 does not exist. Cannot append." : String).length = 32 := rfl
    simp only [String.length_append, e1, e2, e3] at hlen
    omega

/-- C5 witness: the theorem applied at a concrete frame, table name and
the sqlite dialect. -/
theorem C5_policy_violations_witness :
    write_frame frame0 "t" "sqlite" "fail" true =
      (.error ⟨"ValueError", "Table \x27t\x27 already exists."⟩,
        [.exists_check "sqlite" "t"]) ∧
    write_frame frame0 "t" "sqlite" "append" false =
      (.error ⟨"ValueError", "Table \x27t\x27 does not exist. Cannot append."⟩,
        [.exists_check "sqlite" "t"]) := by
  have h := C5_policy_violations frame0 "t" "sqlite" rfl
  exact ⟨h.1, h.2.1⟩

/-- A one-column float frame used by the schema-generation theorems. -/
def frameFloat : Frame := ⟨["a"], [PyType.npFloat64], []⟩

/-- C8 counterexample: the claim says `get_schema` backtick-quotes column
identifiers for mysql.  The only quoting branch in the source is the
sqlite one; mysql falls into the generic unquoted branch, so the
generated statement contains the bare column name and no backtick
character (code point 96) at all. -/
theorem C8_counterexample :
    get_schema frameFloat "t" "mysql" none =
      .ok "CREATE TABLE t (\n                  a FLOAT\n                  \n                  );" ∧
    Char.ofNat 96 ∉
      ("CREATE TABLE t (\n                  a FLOAT\n                  \n                  );").data := by
  exact ⟨rfl, by decide⟩

/-- C8 amended: `get_schema` quotes column identifiers bracketed for
sqlite and leaves them unquoted for every other dialect, mysql included
(same rendering as postgresql); the oracle variant additionally never
returns (it raises `NameError`, see the misspelt `create_statment`).
Stated for every frame whose dtypes resolve to the given type lists. -/
theorem C8_schema_quoting :
    ∀ (frame : Frame) (name : String) (tm ts tp : List String),
      (frame.dtypes.mapM (fun d => get_sqltype d "mysql") = some tm →
        get_schema frame name "mysql" none =
          .ok (schema_template name
            (String.intercalate ",\n  "
              (((frame.columns.map safe_name).zip tm).map
                (fun x => x.1 ++ " " ++ x.2))) "")) ∧
      (frame.dtypes.mapM (fun d => get_sqltype d "sqlite") = some ts →
        get_schema frame name "sqlite" none =
          .ok (schema_template name
            (String.intercalate ",\n  "
              (((frame.columns.map safe_name).zip ts).map
                (fun x => "[" ++ x.1 ++ "] " ++ x.2))) "")) ∧
      (frame.dtypes.mapM (fun d => get_sqltype d "postgresql") = some tp →
        get_schema frame name "postgresql" none =
          .ok (schema_template name
            (String.intercalate ",\n  "
              (((frame.columns.map safe_name).zip tp).map
                (fun x => x.1 ++ " " ++ x.2))) "")) ∧
      (frame.dtypes.mapM (fun d => get_sqltype d "oracle") ≠ none →
        get_schema frame name "oracle" none =
          .error ⟨"NameError",
            "global name \x27create_statment\x27 is not defined"⟩) := by
  intro frame name tm ts tp
  refine ⟨?_, ?_, ?_, ?_⟩
  · intro h
    unfold get_schema
    rw [h]
    rfl
  · intro h
    unfold get_schema
    rw [h]
    rfl
  · intro h
    unfold get_schema
    rw [h]
    rfl
  · intro h
    rcases ho : frame.dtypes.mapM (fun d => get_sqltype d "oracle") with _ | tl
    · exact absurd ho h
    · unfold get_schema
      rw [ho]
      rfl

/-- C8 witness: the amended theorem applied at a concrete one-column
float frame for all four dialects. -/
theorem C8_schema_quoting_witness :
    get_schema frameFloat "t2" "mysql" none =
      .ok "CREATE TABLE t2 (\n                  a FLOAT\n                  \n                  );" ∧
    get_schema frameFloat "t2" "sqlite" none =
      .ok "CREATE TABLE t2 (\n                  [a] REAL\n                  \n                  );" ∧
    get_schema frameFloat "t2" "postgresql" none =
      .ok "CREATE TABLE t2 (\n                  a NUMBER\n                  \n                  );" ∧
    get_schema frameFloat "t2" "oracle" none =
      .error ⟨"NameError",
        "global name \x27create_statment\x27 is not defined"⟩ := by
  have h := C8_schema_quoting frameFloat "t2" ["FLOAT"] ["REAL"] ["NUMBER"]
  exact ⟨h.1 rfl, h.2.1 rfl, h.2.2.1 rfl, h.2.2.2 (by decide)⟩

end PandasSql
